import Mathlib

/-!
Verification of the predictive-maintenance dashboard (`src/app.py`) against its
specification.  The script is embedded shallowly: pandas tables become lists of
records, numeric cells become `Rat`, and one script run (Streamlit re-executes
the whole file on every interaction) becomes a pure function from the widget
inputs and file contents to the list of UI events it emits, in source order.
-/

/-- A raw cell of a numeric-intended CSV column, as it stands after
`pd.read_csv`: a numeric value, a non-numeric string, or missing (NaN). -/
inductive Cell where
  | num (q : Rat)
  | nonNum
  | null
deriving Repr, DecidableEq

/-- `pd.to_numeric(col, errors="coerce")` on one cell: numeric values pass
through, everything else becomes missing. -/
def toNumeric : Cell → Option Rat
  | Cell.num q => some q
  | Cell.nonNum => none
  | Cell.null => none

/-- One row of `latest_snapshot.csv` before cleaning.  `asset_id` and
`risk_bucket` are `none` when the cell is missing (NaN); the sensor-feature
columns are carried through untouched by the cleaning step. -/
structure RawRow where
  asset_id : Option String
  predicted_RUL : Cell
  risk_bucket : Option String
  RMS : Cell
  Kurtosis : Cell
  Fault_Energy : Cell
deriving Repr, DecidableEq

/-- One row of the cleaned snapshot table: `asset_id`, `predicted_RUL`,
`risk_bucket` are guaranteed present and `predicted_RUL` numeric. -/
structure Row where
  asset_id : String
  predicted_RUL : Rat
  risk_bucket : String
  RMS : Cell
  Kurtosis : Cell
  Fault_Energy : Cell
deriving Repr, DecidableEq

/-- The cleaning step of `app.py` lines 27-28 on one row:
`df["predicted_RUL"] = pd.to_numeric(df["predicted_RUL"], errors="coerce")`
followed by `df.dropna(subset=["asset_id", "predicted_RUL", "risk_bucket"])`. -/
def cleanRow (r : RawRow) : Option Row :=
  match toNumeric r.predicted_RUL, r.asset_id, r.risk_bucket with
  | some q, some a, some b => some ⟨a, q, b, r.RMS, r.Kurtosis, r.Fault_Energy⟩
  | _, _, _ => none

/-- The cleaning step on the whole table. -/
def clean (rows : List RawRow) : List Row :=
  rows.filterMap cleanRow

/-- Reinjection of a cleaned row into the raw format, used to state that
re-cleaning a cleaned table is the identity. -/
def Row.toRaw (r : Row) : RawRow :=
  ⟨some r.asset_id, Cell.num r.predicted_RUL, some r.risk_bucket,
    r.RMS, r.Kurtosis, r.Fault_Energy⟩

/-- The filtered view of `app.py` lines 47-51:
`df[(df["risk_bucket"].isin(bucket_filter)) & (df["predicted_RUL"] >= rul_range[0]) & (df["predicted_RUL"] <= rul_range[1])]`. -/
def view (df : List Row) (B : List String) (lo hi : Rat) : List Row :=
  df.filter fun r =>
    B.contains r.risk_bucket && decide (lo ≤ r.predicted_RUL)
      && decide (r.predicted_RUL ≤ hi)

/-- Does the second character list start the first? -/
def startsWithChars : List Char → List Char → Bool
  | [], _ => true
  | _ :: _, [] => false
  | p :: ps, c :: cs => p == c && startsWithChars ps cs

/-- Does `pat` occur as a contiguous run of the haystack? -/
def hasSubList (pat : List Char) : List Char → Bool
  | [] => pat.isEmpty
  | c :: rest => startsWithChars pat (c :: rest) || hasSubList pat rest

/-- Python's `str.upper()`: uppercase each character. -/
def strUpper (s : String) : String :=
  ⟨s.toList.map Char.toUpper⟩

/-- Python's substring test `pat in s`. -/
def strContains (s pat : String) : Bool :=
  hasSubList pat.toList s.toList

/-- The "High Risk (RED)" KPI of `app.py` line 63:
`(df["risk_bucket"] == "RED - Immediate Action").sum()` — an exact string
match over the unfiltered cleaned table. -/
def highRiskRED (df : List Row) : Nat :=
  df.countP fun r => r.risk_bucket == "RED - Immediate Action"

/-- The three advisory classes of the drill-down (lines 137-142). -/
inductive RiskAction where
  | urgent
  | planned
  | normal
deriving Repr, DecidableEq

/-- The drill-down classifier of `app.py` lines 135-142:
`bucket = str(row["risk_bucket"].iloc[0]).upper()`, then
`"RED" in bucket` → urgent, else `"AMBER" in bucket or "YELLOW" in bucket or
"PLAN" in bucket` → planned, else normal. -/
def recommendedAction (b : String) : RiskAction :=
  let bucket := strUpper b
  if strContains bucket "RED" then RiskAction.urgent
  else if strContains bucket "AMBER" || strContains bucket "YELLOW"
      || strContains bucket "PLAN" then RiskAction.planned
  else RiskAction.normal

/-- Ascending order on snapshot rows by `predicted_RUL`, the sort key of
`sort_values("predicted_RUL")`. -/
def rulLE (a b : Row) : Prop :=
  a.predicted_RUL ≤ b.predicted_RUL

instance : DecidableRel rulLE := fun a b =>
  inferInstanceAs (Decidable (a.predicted_RUL ≤ b.predicted_RUL))

instance : IsTotal Row rulLE :=
  ⟨fun a b => le_total a.predicted_RUL b.predicted_RUL⟩

instance : IsTrans Row rulLE :=
  ⟨fun _ _ _ hab hbc => le_trans hab hbc⟩

/-- `df.sort_values("predicted_RUL")`. -/
def sortByRUL (df : List Row) : List Row :=
  List.insertionSort rulLE df

/-- `df[df["asset_id"] == asset]`. -/
def assetRows (df : List Row) (asset : String) : List Row :=
  df.filter fun r => r.asset_id == asset

/-- The drill-down row of `app.py` line 113:
`df[df["asset_id"] == asset].sort_values("predicted_RUL").head(1)`. -/
def selectedRow (df : List Row) (asset : String) : Option Row :=
  (sortByRUL (assetRows df asset)).head?

/-- The three columns kept by the Top-10 list (line 84). -/
structure Top10Entry where
  asset_id : String
  predicted_RUL : Rat
  risk_bucket : String
deriving Repr, DecidableEq

def projTop10 (r : Row) : Top10Entry :=
  ⟨r.asset_id, r.predicted_RUL, r.risk_bucket⟩

/-- `app.py` line 84:
`top10 = df.sort_values("predicted_RUL").head(10)[["asset_id", "predicted_RUL", "risk_bucket"]]` —
computed from the full cleaned table `df`, not from `view`. -/
def top10 (df : List Row) : List Top10Entry :=
  ((sortByRUL df).take 10).map projTop10

/-- One row of `dataset_full.csv`.  The per-row values of `RMS`, `Kurtosis`
and `failure_day` are only meaningful when the table-level column flags below
say the column exists; the script never reads them otherwise. -/
structure HistRow where
  asset_id : String
  day : Cell
  Fault_Energy : Rat
  RMS : Rat
  Kurtosis : Rat
  failure_day : Cell
deriving Repr, DecidableEq

/-- The history table together with which optional columns are present
(`"RMS" in asset_hist.columns` etc. are column-level tests in the script). -/
structure HistTable where
  rows : List HistRow
  hasRMS : Bool
  hasKurtosis : Bool
  hasFailureDay : Bool
deriving Repr, DecidableEq

/-- A history row after `day` was coerced numeric and missing days dropped. -/
structure HRow where
  asset_id : String
  day : Rat
  Fault_Energy : Rat
  RMS : Rat
  Kurtosis : Rat
  failure_day : Cell
deriving Repr, DecidableEq

def cleanHistRow (r : HistRow) : Option HRow :=
  match toNumeric r.day with
  | some d => some ⟨r.asset_id, d, r.Fault_Energy, r.RMS, r.Kurtosis, r.failure_day⟩
  | none => none

/-- Ascending order on history rows by `day`. -/
def dayLE (a b : HRow) : Prop :=
  a.day ≤ b.day

instance : DecidableRel dayLE := fun a b =>
  inferInstanceAs (Decidable (a.day ≤ b.day))

instance : IsTotal HRow dayLE :=
  ⟨fun a b => le_total a.day b.day⟩

instance : IsTrans HRow dayLE :=
  ⟨fun _ _ _ hab hbc => le_trans hab hbc⟩

/-- `app.py` lines 169-170 on the selected asset's history:
`asset_hist["day"] = pd.to_numeric(asset_hist["day"], errors="coerce")`,
`asset_hist = asset_hist.dropna(subset=["day"]).sort_values("day")`. -/
def cleanHist (rows : List HistRow) : List HRow :=
  List.insertionSort dayLE (rows.filterMap cleanHistRow)

/-- `series.rolling(7).mean()`: entry `i` is the mean of entries `i-6 .. i`
when `i ≥ 6`, and missing (NaN) for the first six entries (the default
`min_periods` equals the window size). -/
def rolling7mean (xs : List Rat) : List (Option Rat) :=
  (List.range xs.length).map fun i =>
    if 6 ≤ i then some (((xs.drop (i - 6)).take 7).sum / 7) else none

/-- The trend chart assembled by `app.py` lines 178-209, one field per
`ax.plot` / `ax.axvline` call.  `marker = none` models the failure-day marker
being skipped: column absent, or the `try` block raising (empty frame at
`iloc[0]`, or a value `axvline` cannot place) with the exception swallowed. -/
structure Chart where
  base : List (Rat × Rat)
  smoothOverlay : Option (List (Rat × Option Rat))
  rmsOverlay : Option (List (Rat × Rat))
  kurtOverlay : Option (List (Rat × Rat))
  marker : Option Rat
deriving Repr, DecidableEq

/-- `app.py` lines 178-209 for a nonempty raw per-asset history slice. -/
def buildChart (h : HistTable) (show_rms show_kurt smooth : Bool)
    (assetHistRaw : List HistRow) : Chart :=
  let ah := cleanHist assetHistRaw
  { base := ah.map fun r => (r.day, r.Fault_Energy)
    smoothOverlay :=
      if smooth = true ∧ 7 ≤ ah.length then
        some ((ah.map HRow.day).zip (rolling7mean (ah.map HRow.Fault_Energy)))
      else none
    rmsOverlay :=
      if show_rms = true ∧ h.hasRMS = true then
        some (ah.map fun r => (r.day, r.RMS))
      else none
    kurtOverlay :=
      if show_kurt = true ∧ h.hasKurtosis = true then
        some (ah.map fun r => (r.day, r.Kurtosis))
      else none
    marker :=
      if h.hasFailureDay then
        match ah.head? with
        | some r =>
          match r.failure_day with
          | Cell.num q => some q
          | _ => none
        | none => none
      else none }

/-- The widget state and file contents feeding one script run. -/
structure Inputs where
  snapshotRaw : List RawRow
  history : HistTable
  selectedBuckets : List String
  rulLo : Rat
  rulHi : Rat
  selectedAsset : String
  show_rms : Bool
  show_kurt : Bool
  smooth : Bool
  autoRefresh : Bool
deriving Repr, DecidableEq

/-- The UI events one script run emits, in source order. -/
inductive Event where
  | fileRead (name : String)
  | showDebug
  | showKPIs (assetsMonitored highRisk assetsInView : Nat)
  | showRanking (rows : List Row)
  | showTop10 (entries : List Top10Entry)
  | offerDownload (rows : List Row)
  | showWarning (msg : String)
  | stopped
  | showAction (a : RiskAction)
  | showAssetRow (r : Row)
  | showChart (c : Chart)
  | rerunScheduled
deriving Repr, DecidableEq

/-- `df["asset_id"].nunique()` / `view["asset_id"].nunique()`. -/
def distinctCount (l : List String) : Nat :=
  l.dedup.length

/-- Lexicographic comparison of character lists by code point. -/
def charListLt : List Char → List Char → Bool
  | [], [] => false
  | [], _ :: _ => true
  | _ :: _, [] => false
  | a :: as, b :: bs => a < b || (a == b && charListLt as bs)

/-- Ascending order on strings for `sorted(...)`. -/
def strLE (a b : String) : Prop :=
  a = b ∨ charListLt a.toList b.toList = true

instance : DecidableRel strLE := fun a b =>
  inferInstanceAs (Decidable (a = b ∨ charListLt a.toList b.toList = true))

/-- The options of the asset selectbox (`app.py` line 103):
`sorted(df["asset_id"].unique().tolist())`. -/
def assetOptions (df : List Row) : List String :=
  List.insertionSort strLE (df.map Row.asset_id).dedup

/-- Everything the script renders before the drill-down branch:
lines 19-94 (snapshot read, debug table, KPIs, ranking, Top-10, download). -/
def headEvents (i : Inputs) : List Event :=
  let df := clean i.snapshotRaw
  let v := view df i.selectedBuckets i.rulLo i.rulHi
  [Event.fileRead "latest_snapshot.csv",
   Event.showDebug,
   Event.showKPIs (distinctCount (df.map Row.asset_id)) (highRiskRED df)
     (distinctCount (v.map Row.asset_id)),
   Event.showRanking (sortByRUL v),
   Event.showTop10 (top10 df),
   Event.offerDownload v]

/-- The drill-down of `app.py` lines 101-216: the selected asset's snapshot
row (or warning plus `st.stop()`), the advisory, the history read, and the
chart (or the no-history warning), then the optional auto-refresh rerun. -/
def drillEvents (i : Inputs) : List Event :=
  let df := clean i.snapshotRaw
  match selectedRow df i.selectedAsset with
  | none => [Event.showWarning "No snapshot row found for this asset.", Event.stopped]
  | some r =>
    let ah := i.history.rows.filter fun hr => hr.asset_id == i.selectedAsset
    [Event.showAction (recommendedAction r.risk_bucket),
     Event.showAssetRow r,
     Event.fileRead "dataset_full.csv"] ++
    (if ah.isEmpty then
      [Event.showWarning "No historical data found for this asset in dataset_full.csv."]
     else
      [Event.showChart (buildChart i.history i.show_rms i.show_kurt i.smooth ah)]) ++
    (if i.autoRefresh then [Event.rerunScheduled] else [])

/-- One full script run (Streamlit re-executes `app.py` top to bottom on
every interaction; the script holds no state between runs and uses no cache). -/
def renderScript (i : Inputs) : List Event :=
  headEvents i ++ drillEvents i

/-- The Top-10 list a run displays, if any. -/
def top10Of (evs : List Event) : Option (List Top10Entry) :=
  evs.findSome? fun e =>
    match e with
    | Event.showTop10 l => some l
    | _ => none

/-- The "High Risk (RED)" KPI value a run displays, if any. -/
def highRiskOf (evs : List Event) : Option Nat :=
  evs.findSome? fun e =>
    match e with
    | Event.showKPIs _ h _ => some h
    | _ => none

/-- A small concrete snapshot file used to instantiate the theorems. -/
def exSnapshot : List RawRow :=
  [⟨some "A1", Cell.num 5, some "RED - Immediate Action",
      Cell.null, Cell.null, Cell.null⟩,
   ⟨some "A2", Cell.num 50, some "AMBER - Plan", Cell.null, Cell.null, Cell.null⟩]

/-- A small concrete history file used to instantiate the theorems. -/
def exHistory : HistTable :=
  ⟨[⟨"A1", Cell.num 1, 10, 0, 0, Cell.num 9⟩], true, true, true⟩

/-- A concrete widget state used to instantiate the theorems. -/
def exInputs : Inputs :=
  ⟨exSnapshot, exHistory, ["RED - Immediate Action", "AMBER - Plan"],
    0, 100, "A1", false, false, true, false⟩

/-- A concrete seven-day history for one asset. -/
def ex7Rows : List HistRow :=
  [⟨"A1", Cell.num 1, 10, 0, 0, Cell.num 9⟩,
   ⟨"A1", Cell.num 2, 11, 0, 0, Cell.num 9⟩,
   ⟨"A1", Cell.num 3, 12, 0, 0, Cell.num 9⟩,
   ⟨"A1", Cell.num 4, 13, 0, 0, Cell.num 9⟩,
   ⟨"A1", Cell.num 5, 14, 0, 0, Cell.num 9⟩,
   ⟨"A1", Cell.num 6, 15, 0, 0, Cell.num 9⟩,
   ⟨"A1", Cell.num 7, 16, 0, 0, Cell.num 9⟩]

example : clean [⟨some "A1", Cell.num 5, some "RED - Immediate Action",
    Cell.null, Cell.null, Cell.null⟩,
    ⟨some "A2", Cell.nonNum, some "GREEN", Cell.null, Cell.null, Cell.null⟩] =
    [⟨"A1", 5, "RED - Immediate Action", Cell.null, Cell.null, Cell.null⟩] := by
  decide

example : recommendedAction "red-immediate" = RiskAction.urgent := by decide

example : recommendedAction "RED/AMBER-mixed" = RiskAction.urgent := by decide

example : recommendedAction "Amber - plan soon" = RiskAction.planned := by decide

example : recommendedAction "GREEN" = RiskAction.normal := by decide

/-- Re-cleaning an already-cleaned row is the identity. -/
theorem cleanRow_toRaw (c : Row) : cleanRow (Row.toRaw c) = some c := rfl

/-- C1: the filtered view contains exactly the rows whose bucket is in the
selected set and whose `predicted_RUL` lies in `[lo, hi]`, both bounds
inclusive, and filtering its own result with the same arguments returns the
same rows. -/
theorem c1_filter_exact_and_idempotent (df : List Row) (B : List String)
    (lo hi : Rat) :
    (∀ r : Row, r ∈ view df B lo hi ↔
      r ∈ df ∧ r.risk_bucket ∈ B ∧ lo ≤ r.predicted_RUL ∧ r.predicted_RUL ≤ hi)
    ∧ view (view df B lo hi) B lo hi = view df B lo hi := by
  constructor
  · intro r
    simp [view, List.mem_filter, and_assoc]
  · rw [view, view, List.filter_filter]
    congr 1
    funext r
    cases h1 : B.contains r.risk_bucket <;>
      cases h2 : decide (lo ≤ r.predicted_RUL) <;>
        cases h3 : decide (r.predicted_RUL ≤ hi) <;> simp [h1, h2, h3]

/-- C1, instantiated: a two-row table filtered to the RED bucket on the range
`[0, 10]` keeps the RED row with RUL 5 and drops the GREEN row with RUL 50. -/
theorem c1_witness :
    (⟨"A1", 5, "RED - Immediate Action", Cell.null, Cell.null, Cell.null⟩ : Row) ∈
      view [⟨"A1", 5, "RED - Immediate Action", Cell.null, Cell.null, Cell.null⟩,
        ⟨"A2", 50, "GREEN", Cell.null, Cell.null, Cell.null⟩]
        ["RED - Immediate Action"] 0 10 := by
  have h := c1_filter_exact_and_idempotent
    [⟨"A1", 5, "RED - Immediate Action", Cell.null, Cell.null, Cell.null⟩,
      ⟨"A2", 50, "GREEN", Cell.null, Cell.null, Cell.null⟩]
    ["RED - Immediate Action"] 0 10
  exact (h.1 ⟨"A1", 5, "RED - Immediate Action", Cell.null, Cell.null, Cell.null⟩).2
    ⟨by decide, by decide, by decide, by decide⟩

/-- C5: a raw row missing `asset_id` or `risk_bucket`, or whose
`predicted_RUL` does not coerce to a number, is dropped; every cleaned row
comes from a raw row carrying exactly its (coerced) field values; and
re-cleaning a cleaned table yields the same table. -/
theorem c5_cleaning (raws : List RawRow) :
    (∀ raw ∈ raws,
      raw.asset_id = none ∨ raw.risk_bucket = none ∨
          toNumeric raw.predicted_RUL = none →
        cleanRow raw = none)
    ∧ (∀ c ∈ clean raws, ∃ raw ∈ raws,
        raw.asset_id = some c.asset_id ∧
        toNumeric raw.predicted_RUL = some c.predicted_RUL ∧
        raw.risk_bucket = some c.risk_bucket)
    ∧ clean ((clean raws).map Row.toRaw) = clean raws := by
  refine ⟨?_, ?_, ?_⟩
  · intro raw _ hviol
    rcases hN : toNumeric raw.predicted_RUL with _ | q <;>
      rcases hA : raw.asset_id with _ | a <;>
        rcases hB : raw.risk_bucket with _ | b <;>
          simp_all [cleanRow]
  · intro c hc
    rw [clean, List.mem_filterMap] at hc
    obtain ⟨raw, hmem, hrow⟩ := hc
    refine ⟨raw, hmem, ?_⟩
    rcases hN : toNumeric raw.predicted_RUL with _ | q <;>
      rcases hA : raw.asset_id with _ | a <;>
        rcases hB : raw.risk_bucket with _ | b <;>
          simp_all [cleanRow]
    obtain ⟨rfl, rfl⟩ := hrow
    exact ⟨rfl, rfl, rfl⟩
  · rw [clean, List.filterMap_map]
    have h : (cleanRow ∘ Row.toRaw) = some := by
      funext c
      exact cleanRow_toRaw c
    rw [h, List.filterMap_some]

/-- C5, instantiated: a row with a non-numeric RUL is dropped, and
re-cleaning the cleaned one-good-row table is the identity. -/
theorem c5_witness :
    cleanRow ⟨some "A2", Cell.nonNum, some "GREEN", Cell.null, Cell.null,
        Cell.null⟩ = none
    ∧ clean ((clean [⟨some "A1", Cell.num 5, some "RED - Immediate Action",
          Cell.null, Cell.null, Cell.null⟩]).map Row.toRaw) =
        clean [⟨some "A1", Cell.num 5, some "RED - Immediate Action",
          Cell.null, Cell.null, Cell.null⟩] := by
  have h := c5_cleaning [⟨some "A2", Cell.nonNum, some "GREEN", Cell.null,
    Cell.null, Cell.null⟩]
  have h2 := c5_cleaning [⟨some "A1", Cell.num 5,
    some "RED - Immediate Action", Cell.null, Cell.null, Cell.null⟩]
  exact ⟨h.1 _ (by decide) (by decide), h2.2.2⟩

/-- The head of an insertion sort is a member of the list that is below every
member of the list. -/
theorem head?_insertionSort_min {α : Type} (r : α → α → Prop) [DecidableRel r]
    [IsTotal α r] [IsTrans α r] {l : List α} {x : α}
    (h : (List.insertionSort r l).head? = some x) :
    x ∈ l ∧ ∀ y ∈ l, r x y := by
  obtain ⟨t, ht⟩ := List.head?_eq_some_iff.mp h
  have hsorted := List.sorted_insertionSort r l
  rw [ht] at hsorted
  constructor
  · have hx : x ∈ List.insertionSort r l := by
      rw [ht]
      exact List.mem_cons_self x t
    simpa using hx
  · intro y hy
    have hy2 : y ∈ x :: t := by
      rw [← ht]
      simpa using hy
    rcases List.mem_cons.mp hy2 with heq | hyt
    · rw [heq]
      rcases total_of r x x with hxx | hxx <;> exact hxx
    · exact (List.sorted_cons.mp hsorted).1 y hyt

/-- C2: the "High Risk (RED)" KPI is an exact string match with the literal
"RED - Immediate Action" counted over the unfiltered cleaned table, so a row
whose bucket is "red-immediate" contributes nothing to it, while the
drill-down classifies that same bucket string as urgent via case-insensitive
substring matching on "RED". -/
theorem c2_kpi_exact_vs_drilldown_substring (i : Inputs) (r : Row)
    (h : r.risk_bucket = "red-immediate") :
    highRiskOf (renderScript i) = some (highRiskRED (clean i.snapshotRaw))
    ∧ (∀ df : List Row, highRiskRED df =
        (df.filter fun x => x.risk_bucket = "RED - Immediate Action").length)
    ∧ (∀ df : List Row, highRiskRED (r :: df) = highRiskRED df)
    ∧ recommendedAction r.risk_bucket = RiskAction.urgent := by
  refine ⟨rfl, ?_, ?_, ?_⟩
  · intro df
    rw [highRiskRED, List.countP_eq_length_filter]
    congr 1
  · intro df
    rw [highRiskRED, highRiskRED, List.countP_cons_of_neg]
    simp [h]
  · rw [h]
    decide

/-- C2, instantiated at the concrete dashboard state and a concrete
"red-immediate" row. -/
theorem c2_witness :
    highRiskOf (renderScript exInputs) = some (highRiskRED (clean exSnapshot))
    ∧ highRiskRED
        [(⟨"A9", 1, "red-immediate", Cell.null, Cell.null, Cell.null⟩ : Row)] =
      highRiskRED []
    ∧ recommendedAction "red-immediate" = RiskAction.urgent := by
  have h := c2_kpi_exact_vs_drilldown_substring exInputs
    ⟨"A9", 1, "red-immediate", Cell.null, Cell.null, Cell.null⟩ rfl
  exact ⟨h.1, h.2.2.1 [], h.2.2.2⟩

/-- C3: the drill-down row for an asset is one of that asset's snapshot rows
and has the smallest `predicted_RUL` among them; the classifier is a
case-insensitive substring match with precedence RED, then
AMBER/YELLOW/PLAN, then normal; "RED/AMBER-mixed" classifies as urgent. -/
theorem c3_drilldown_min_row_and_precedence (df : List Row) (a : String)
    (r : Row) (h : selectedRow df a = some r) :
    (r ∈ df ∧ r.asset_id = a
      ∧ ∀ s ∈ df, s.asset_id = a → r.predicted_RUL ≤ s.predicted_RUL)
    ∧ (∀ b : String, strContains (strUpper b) "RED" = true →
        recommendedAction b = RiskAction.urgent)
    ∧ (∀ b : String, strContains (strUpper b) "RED" = false →
        (strContains (strUpper b) "AMBER" || strContains (strUpper b) "YELLOW"
          || strContains (strUpper b) "PLAN") = true →
        recommendedAction b = RiskAction.planned)
    ∧ (∀ b : String, strContains (strUpper b) "RED" = false →
        (strContains (strUpper b) "AMBER" || strContains (strUpper b) "YELLOW"
          || strContains (strUpper b) "PLAN") = false →
        recommendedAction b = RiskAction.normal)
    ∧ recommendedAction "RED/AMBER-mixed" = RiskAction.urgent := by
  have hmin := head?_insertionSort_min rulLE h
  obtain ⟨hmem, hle⟩ := hmin
  rw [assetRows, List.mem_filter] at hmem
  refine ⟨⟨hmem.1, by simpa using hmem.2, ?_⟩, ?_, ?_, ?_, by decide⟩
  · intro s hs hsa
    have : s ∈ assetRows df a := by
      rw [assetRows, List.mem_filter]
      exact ⟨hs, by simpa using hsa⟩
    exact hle s this
  · intro b hb
    simp [recommendedAction, hb]
  · intro b hb hb2
    simp [recommendedAction, hb, hb2]
  · intro b hb hb2
    simp [recommendedAction, hb, hb2]

/-- C3, instantiated: with two rows for asset "A1" (RUL 7 and RUL 3), the
drill-down selects the RUL-3 row, whose RUL is below both. -/
theorem c3_witness :
    (⟨"A1", 3, "GREEN", Cell.null, Cell.null, Cell.null⟩ : Row) ∈
        [(⟨"A1", 7, "RED - Immediate Action", Cell.null, Cell.null,
            Cell.null⟩ : Row),
          ⟨"A1", 3, "GREEN", Cell.null, Cell.null, Cell.null⟩]
    ∧ recommendedAction "RED/AMBER-mixed" = RiskAction.urgent := by
  have h := c3_drilldown_min_row_and_precedence
    [⟨"A1", 7, "RED - Immediate Action", Cell.null, Cell.null, Cell.null⟩,
      ⟨"A1", 3, "GREEN", Cell.null, Cell.null, Cell.null⟩] "A1"
    ⟨"A1", 3, "GREEN", Cell.null, Cell.null, Cell.null⟩ (by decide)
  exact ⟨h.1.1, h.2.2.2.2⟩

/-- Every script run displays the Top-10 list computed from the full cleaned
table. -/
theorem top10Of_renderScript (i : Inputs) :
    top10Of (renderScript i) = some (top10 (clean i.snapshotRaw)) := rfl

/-- C4: the Top-10 list is the full cleaned table sorted ascending by
`predicted_RUL`, truncated to 10 rows and projected to three columns, and two
runs differing only in the selected bucket set and the RUL range display the
same Top-10 list. -/
theorem c4_top10_full_table_filter_independent (i : Inputs) (B2 : List String)
    (lo2 hi2 : Rat) :
    top10Of (renderScript
        { i with selectedBuckets := B2, rulLo := lo2, rulHi := hi2 })
      = top10Of (renderScript i)
    ∧ ∃ s : List Row, List.Perm s (clean i.snapshotRaw) ∧ List.Sorted rulLE s ∧
        top10Of (renderScript i) = some ((s.take 10).map projTop10) := by
  refine ⟨?_, List.insertionSort rulLE (clean i.snapshotRaw),
    List.perm_insertionSort rulLE (clean i.snapshotRaw),
    List.sorted_insertionSort rulLE (clean i.snapshotRaw), ?_⟩
  · rw [top10Of_renderScript, top10Of_renderScript]
  · rw [top10Of_renderScript]
    rfl

/-- C4, instantiated: clearing the bucket selection and collapsing the RUL
range does not change the displayed Top-10 list. -/
theorem c4_witness :
    top10Of (renderScript
        { exInputs with selectedBuckets := [], rulLo := 3, rulHi := 3 })
      = top10Of (renderScript exInputs) :=
  (c4_top10_full_table_filter_independent exInputs [] 3 3).1

/-- C6 fails on the code: the claim that no render after the first performs a
file read is refuted by a session of two identical runs whose second run
still reads `latest_snapshot.csv`. -/
theorem c6_counterexample :
    ¬ ∀ (renders : List Inputs) (evs : List Event),
        evs ∈ (renders.map renderScript).drop 1 →
          ∀ n : String, Event.fileRead n ∉ evs := by
  intro hclaim
  exact hclaim [exInputs, exInputs] (renderScript exInputs) (by simp)
    "latest_snapshot.csv" (List.Mem.head _)

/-- C6 amended: the loaders are not memoized — every run of the script,
including every run after the first of a session, re-reads
`latest_snapshot.csv`. -/
theorem c6_amended_every_render_reads (renders : List Inputs)
    (evs : List Event) (h : evs ∈ (renders.map renderScript).drop 1) :
    Event.fileRead "latest_snapshot.csv" ∈ evs := by
  rw [← List.map_drop] at h
  obtain ⟨i, _, rfl⟩ := List.mem_map.mp h
  exact List.Mem.head _

/-- C6 amended, instantiated: the second of two identical runs reads
`latest_snapshot.csv`. -/
theorem c6_witness :
    Event.fileRead "latest_snapshot.csv" ∈ renderScript exInputs :=
  c6_amended_every_render_reads [exInputs, exInputs] (renderScript exInputs)
    (by simp)

/-- C7: the smoothed overlay is present exactly when the smoothing toggle is
on and the cleaned per-asset history has at least 7 points; when present it
is the 7-point rolling mean of `Fault_Energy`, whose entries are missing
before index 6 and otherwise average exactly 7 consecutive values. -/
theorem c7_smoothing_overlay (h : HistTable) (sR sK smooth : Bool)
    (raw : List HistRow) :
    ((buildChart h sR sK smooth raw).smoothOverlay ≠ none ↔
      smooth = true ∧ 7 ≤ (cleanHist raw).length)
    ∧ (∀ l, (buildChart h sR sK smooth raw).smoothOverlay = some l →
        l = ((cleanHist raw).map HRow.day).zip
          (rolling7mean ((cleanHist raw).map HRow.Fault_Energy)))
    ∧ (∀ (xs : List Rat) (j : Nat) (m : Rat),
        (rolling7mean xs)[j]? = some (some m) →
          6 ≤ j ∧ ((xs.drop (j - 6)).take 7).length = 7
            ∧ m = ((xs.drop (j - 6)).take 7).sum / 7) := by
  refine ⟨?_, ?_, ?_⟩
  · by_cases hc : smooth = true ∧ 7 ≤ (cleanHist raw).length
    · simp [buildChart, hc]
    · simp [buildChart, hc]
  · intro l hl
    by_cases hc : smooth = true ∧ 7 ≤ (cleanHist raw).length
    · simp [buildChart, hc] at hl
      exact hl.symm
    · simp [buildChart, hc] at hl
  · intro xs j m hjm
    rw [rolling7mean, List.getElem?_map] at hjm
    by_cases hj : j < xs.length
    · rw [List.getElem?_range hj] at hjm
      simp only [Option.map_some', Option.some.injEq] at hjm
      by_cases h6 : 6 ≤ j
      · rw [if_pos h6] at hjm
        refine ⟨h6, ?_, ?_⟩
        · rw [List.length_take, List.length_drop]
          omega
        · exact (Option.some.inj hjm).symm
      · rw [if_neg h6] at hjm
        exact absurd hjm (by simp)
    · rw [List.getElem?_eq_none
        (by simpa [List.length_range] using Nat.le_of_not_lt hj)] at hjm
      exact absurd hjm (by simp)

/-- C7, instantiated: with smoothing on and a 7-point history the overlay is
drawn. -/
theorem c7_witness :
    (buildChart exHistory false false true ex7Rows).smoothOverlay ≠ none :=
  (c7_smoothing_overlay exHistory false false true ex7Rows).1.mpr
    ⟨rfl, by decide⟩

/-- C8: the failure-day marker is skipped when the `failure_day` column is
absent, when the cleaned history is empty (the `iloc[0]` exception is
swallowed), and when the first row's `failure_day` value is not numeric (the
`axvline` exception is swallowed); in every case the base trend series is
still rendered. -/
theorem c8_failure_marker_fail_silent (h : HistTable) (sR sK sm : Bool)
    (raw : List HistRow) :
    (h.hasFailureDay = false → (buildChart h sR sK sm raw).marker = none)
    ∧ (∀ r rest, cleanHist raw = r :: rest →
        (∀ q : Rat, r.failure_day ≠ Cell.num q) →
        (buildChart h sR sK sm raw).marker = none)
    ∧ (cleanHist raw = [] → (buildChart h sR sK sm raw).marker = none)
    ∧ (buildChart h sR sK sm raw).base =
        (cleanHist raw).map (fun r => (r.day, r.Fault_Energy)) := by
  refine ⟨?_, ?_, ?_, rfl⟩
  · intro hf
    simp [buildChart, hf]
  · intro r rest hcons hq
    cases hfd : r.failure_day with
    | num q => exact absurd hfd (hq q)
    | nonNum => simp [buildChart, hcons, hfd]
    | null => simp [buildChart, hcons, hfd]
  · intro hnil
    simp [buildChart, hnil]

/-- C8, instantiated: a non-numeric `failure_day` yields no marker while the
base series is still drawn. -/
theorem c8_witness :
    (buildChart ⟨[⟨"A1", Cell.num 1, 10, 0, 0, Cell.nonNum⟩], true, true, true⟩
        false false true [⟨"A1", Cell.num 1, 10, 0, 0, Cell.nonNum⟩]).marker
      = none := by
  have h := c8_failure_marker_fail_silent
    ⟨[⟨"A1", Cell.num 1, 10, 0, 0, Cell.nonNum⟩], true, true, true⟩
    false false true [⟨"A1", Cell.num 1, 10, 0, 0, Cell.nonNum⟩]
  exact h.2.1 ⟨"A1", 1, 10, 0, 0, Cell.nonNum⟩ [] (by decide)
    (fun q hq => Cell.noConfusion hq)

/-- C9: a selected asset with no snapshot row yields a warning and stops at
the drill-down while everything rendered before it (KPIs, ranking, Top-10,
download) stands; a selected asset with a snapshot row but no history rows
yields a visible no-historical-data warning, no chart, and no stop, with the
rest of the page rendered. -/
theorem c9_display_gaps_section_local (i : Inputs) :
    (selectedRow (clean i.snapshotRaw) i.selectedAsset = none →
      renderScript i = headEvents i ++
        [Event.showWarning "No snapshot row found for this asset.",
          Event.stopped]
      ∧ Event.showTop10 (top10 (clean i.snapshotRaw)) ∈ renderScript i
      ∧ ∀ c, Event.showChart c ∉ renderScript i)
    ∧ (∀ r, selectedRow (clean i.snapshotRaw) i.selectedAsset = some r →
        (i.history.rows.filter fun hr => hr.asset_id == i.selectedAsset) = [] →
        Event.showWarning
            "No historical data found for this asset in dataset_full.csv."
          ∈ renderScript i
        ∧ (∀ c, Event.showChart c ∉ renderScript i)
        ∧ Event.stopped ∉ renderScript i
        ∧ Event.showTop10 (top10 (clean i.snapshotRaw)) ∈ renderScript i
        ∧ Event.showAction (recommendedAction r.risk_bucket) ∈ renderScript i)
    := by
  constructor
  · intro hnone
    refine ⟨?_, ?_, ?_⟩
    · rw [renderScript]
      congr 1
      simp [drillEvents, hnone]
    · simp [renderScript, headEvents]
    · intro c
      simp [renderScript, headEvents, drillEvents, hnone]
  · intro r hsome hfilter
    cases hA : i.autoRefresh <;>
      refine ⟨?_, fun c => ?_, ?_, ?_, ?_⟩ <;>
        simp [renderScript, headEvents, drillEvents, hsome, hfilter, hA]

/-- C9, instantiated: asset "A1" is in the snapshot but has no history rows,
so the no-historical-data warning shows, no chart shows, and the run is not
stopped. -/
theorem c9_witness :
    Event.showWarning
        "No historical data found for this asset in dataset_full.csv."
      ∈ renderScript { exInputs with history := ⟨[], true, true, true⟩ }
    ∧ Event.stopped ∉
        renderScript { exInputs with history := ⟨[], true, true, true⟩ } := by
  have h := (c9_display_gaps_section_local
      { exInputs with history := ⟨[], true, true, true⟩ }).2
    ⟨"A1", 5, "RED - Immediate Action", Cell.null, Cell.null, Cell.null⟩
    (by decide) (by decide)
  exact ⟨h.1, h.2.2.1⟩

/-- C10: every asset offered by the selectbox (the distinct `asset_id` values
of the cleaned table itself) has at least one snapshot row, so the
no-snapshot-row warning and the `st.stop()` of that branch never fire. -/
theorem c10_snapshot_warning_unreachable (i : Inputs)
    (h : i.selectedAsset ∈ assetOptions (clean i.snapshotRaw)) :
    assetRows (clean i.snapshotRaw) i.selectedAsset ≠ []
    ∧ Event.stopped ∉ renderScript i
    ∧ Event.showWarning "No snapshot row found for this asset."
        ∉ renderScript i := by
  have hmem : i.selectedAsset ∈ (clean i.snapshotRaw).map Row.asset_id := by
    simpa [assetOptions] using h
  obtain ⟨r, hr, hra⟩ := List.mem_map.mp hmem
  have hrowmem : r ∈ assetRows (clean i.snapshotRaw) i.selectedAsset := by
    rw [assetRows, List.mem_filter]
    exact ⟨hr, by simpa using hra⟩
  have hne : assetRows (clean i.snapshotRaw) i.selectedAsset ≠ [] :=
    List.ne_nil_of_mem hrowmem
  have hsel : ∃ r0,
      selectedRow (clean i.snapshotRaw) i.selectedAsset = some r0 := by
    rw [selectedRow]
    cases hh :
        (sortByRUL (assetRows (clean i.snapshotRaw) i.selectedAsset)).head? with
    | some r0 => exact ⟨r0, rfl⟩
    | none =>
      rw [List.head?_eq_none_iff, sortByRUL] at hh
      have hp := List.perm_insertionSort rulLE
        (assetRows (clean i.snapshotRaw) i.selectedAsset)
      rw [hh] at hp
      exact absurd hp.symm.eq_nil hne
  obtain ⟨r0, hr0⟩ := hsel
  refine ⟨hne, ?_, ?_⟩ <;>
    cases hE : ((i.history.rows.filter
        fun hr => hr.asset_id == i.selectedAsset)).isEmpty <;>
      cases hA : i.autoRefresh <;>
        simp [renderScript, headEvents, drillEvents, hr0, hE, hA]

/-- C10, instantiated: asset "A1" is selectable, so its snapshot lookup is
nonempty and the run is never stopped. -/
theorem c10_witness :
    assetRows (clean exSnapshot) "A1" ≠ []
    ∧ Event.stopped ∉ renderScript exInputs := by
  have h := c10_snapshot_warning_unreachable exInputs (by decide)
  exact ⟨h.1, h.2.1⟩
